import Mathlib

/-
  Verification development for the bodymovin-rs animation renderer
  (src/lib.rs).  The Rust code is shallowly embedded:

  * f32 values are modelled by the type FV: an exact rational for every
    finite value, plus the IEEE-754 special values +inf, -inf and NaN.
    The arithmetic on finite values is exact rational arithmetic (no
    rounding); every concrete input used in a counterexample below is
    chosen so that the corresponding f32 computation is exact, and every
    universal theorem only uses order/clamp-robust reasoning.
    Rational zero is unsigned; the only zero denominators reached by the
    embedded code arise as t - t on finite t, which is +0.0 in IEEE
    arithmetic, and FV.div adopts that convention.
  * serde_json::Value is modelled by the inductive type Value.
  * Images are width/height plus a total pixel function; pixels are
    8-bit RGBA channels modelled as Nat.
  * External collaborators (the image crate's file decoding, Lanczos
    resampling and rotation) are parameters of the compositor model;
    alpha blending of image::imageops::overlay is modelled from the
    spec (section 4.3 step 4).
-/

/-- Model of an f32 value: exact rational finite values plus the IEEE
special values.  inf true is +infinity, inf false is -infinity. -/
inductive FV where
  | fin (q : ℚ)
  | inf (pos : Bool)
  | nan
  deriving DecidableEq, Repr

/-- IEEE negation. -/
def FV.neg : FV → FV
  | .fin q => .fin (-q)
  | .inf p => .inf (!p)
  | .nan => .nan

/-- IEEE addition (finite part exact). -/
def FV.add : FV → FV → FV
  | .nan, _ => .nan
  | _, .nan => .nan
  | .fin a, .fin b => .fin (a + b)
  | .fin _, .inf p => .inf p
  | .inf p, .fin _ => .inf p
  | .inf p, .inf q => if p = q then .inf p else .nan

/-- IEEE subtraction. -/
def FV.sub (a b : FV) : FV := FV.add a (FV.neg b)

/-- IEEE multiplication (finite part exact). -/
def FV.mul : FV → FV → FV
  | .nan, _ => .nan
  | _, .nan => .nan
  | .fin a, .fin b => .fin (a * b)
  | .fin a, .inf p => if a = 0 then .nan else if 0 < a then .inf p else .inf (!p)
  | .inf p, .fin a => if a = 0 then .nan else if 0 < a then .inf p else .inf (!p)
  | .inf p, .inf q => .inf (p = q)

/-- IEEE division (finite part exact).  A zero denominator is treated as
+0.0, which is the only zero produced by the embedded code (t - t). -/
def FV.div : FV → FV → FV
  | .nan, _ => .nan
  | _, .nan => .nan
  | .fin a, .fin b =>
      if b = 0 then
        if a = 0 then .nan else if 0 < a then .inf true else .inf false
      else .fin (a / b)
  | .fin _, .inf _ => .fin 0
  | .inf p, .fin b => if 0 ≤ b then .inf p else .inf (!p)
  | .inf _, .inf _ => .nan

/-- f32::abs. -/
def FV.abs : FV → FV
  | .fin q => .fin |q|
  | .inf _ => .inf true
  | .nan => .nan

/-- IEEE less-than (false on NaN operands), as the Bool the Rust
comparison operator returns. -/
def FV.blt : FV → FV → Bool
  | .nan, _ => false
  | _, .nan => false
  | .fin a, .fin b => decide (a < b)
  | .fin _, .inf p => p
  | .inf p, .fin _ => !p
  | .inf p, .inf q => !p && q

/-- IEEE less-or-equal (false on NaN operands). -/
def FV.ble : FV → FV → Bool
  | .nan, _ => false
  | _, .nan => false
  | .fin a, .fin b => decide (a ≤ b)
  | .fin _, .inf p => p
  | .inf p, .fin _ => !p
  | .inf p, .inf q => p = q || (!p && q)

/-- IEEE equality (false on NaN operands). -/
def FV.beq : FV → FV → Bool
  | .fin a, .fin b => decide (a = b)
  | .inf p, .inf q => p = q
  | _, _ => false

/-- IEEE inequality (true on NaN operands), the Rust != operator. -/
def FV.bne (a b : FV) : Bool := !(FV.beq a b)

/-- Rust f32::clamp: if self < min then min, then if the result > max
then max; NaN input stays NaN. -/
def FV.clamp (x lo hi : FV) : FV :=
  let x1 := if FV.blt x lo then lo else x
  if FV.blt hi x1 then hi else x1

/-- Truncation of a rational toward zero (the rounding used by Rust
float-to-integer casts). -/
def qtrunc (q : ℚ) : ℤ := if 0 ≤ q then ⌊q⌋ else -⌊-q⌋

/-- Rust saturating cast f32 as u32: NaN to 0, clamped into
[0, 2^32 - 1], truncated toward zero. -/
def FV.toU32 : FV → ℕ
  | .nan => 0
  | .inf p => if p then 4294967295 else 0
  | .fin q => if q ≤ 0 then 0 else min (qtrunc q).toNat 4294967295

/-- Rust saturating cast f32 as u8. -/
def FV.toU8 : FV → ℕ
  | .nan => 0
  | .inf p => if p then 255 else 0
  | .fin q => if q ≤ 0 then 0 else min (qtrunc q).toNat 255

/-- Rust saturating cast f32 as i64. -/
def FV.toI64 : FV → ℤ
  | .nan => 0
  | .inf p => if p then 9223372036854775807 else -9223372036854775808
  | .fin q => max (-9223372036854775808) (min (qtrunc q) 9223372036854775807)

/-- The resolved value lies in the closed unit interval (in particular
it is finite). -/
def FV.inUnit (v : FV) : Prop := ∃ q : ℚ, v = FV.fin q ∧ 0 ≤ q ∧ q ≤ 1

/-- Model of serde_json::Value.  Numbers are modelled as exact
rationals (serde_json parses JSON numbers into i64/u64/f64; all number
literals appearing in the claims are exactly representable). -/
inductive Value where
  | null
  | bool (b : Bool)
  | num (q : ℚ)
  | str (s : String)
  | arr (elems : List Value)
  | obj (fields : List (String × Value))

/-- Key lookup in an object's field list (serde_json maps have unique
keys; first match). -/
def Value.lookup : List (String × Value) → String → Option Value
  | [], _ => none
  | (k, v) :: rest, key => if k = key then some v else Value.lookup rest key

/-- serde_json::Value::get(key): Some only on objects that carry the key. -/
def Value.get : Value → String → Option Value
  | .obj fields, key => Value.lookup fields key
  | _, _ => none

/-- serde_json's Index with a string key: Null when the key is absent
or the value is not an object. -/
def Value.index (v : Value) (key : String) : Value := (v.get key).getD Value.null

/-- serde_json's Index with a usize: Null when out of bounds or the
value is not an array. -/
def Value.idx (v : Value) (i : ℕ) : Value :=
  match v with
  | .arr xs => (xs.get? i).getD Value.null
  | _ => Value.null

/-- serde_json::Value::as_f64: Some for every number. -/
def Value.as_f64 : Value → Option ℚ
  | .num q => some q
  | _ => none

/-- serde_json::Value::as_i64 (integral numbers; the animated flags in
the claims are authored as the integer 1). -/
def Value.as_i64 : Value → Option ℤ
  | .num q => if q.den = 1 then some q.num else none
  | _ => none

/-- serde_json::Value::as_u64. -/
def Value.as_u64 : Value → Option ℕ
  | .num q => if q.den = 1 ∧ 0 ≤ q.num then some q.num.toNat else none
  | _ => none

/-- serde_json::Value::as_str. -/
def Value.as_str : Value → Option String
  | .str s => some s
  | _ => none

/-- serde_json::Value::as_array. -/
def Value.as_array : Value → Option (List Value)
  | .arr xs => some xs
  | _ => none

/-- serde_json::Value::is_array. -/
def Value.is_array : Value → Bool
  | .arr _ => true
  | _ => false

/-- serde_json::Value::is_object. -/
def Value.is_object : Value → Bool
  | .obj _ => true
  | _ => false

/-- 2-D vector of f32, from src/lib.rs. -/
structure Vec2 where
  x : FV
  y : FV
  deriving DecidableEq, Repr

/-- One RGBA pixel, each channel an 8-bit value. -/
structure Pixel where
  r : ℕ
  g : ℕ
  b : ℕ
  a : ℕ
  deriving DecidableEq, Repr

/-- A raster image: dimensions plus a total pixel function (only the
values at coordinates inside the dimensions are meaningful). -/
structure Image where
  width : ℕ
  height : ℕ
  pix : ℕ → ℕ → Pixel

/-- image::ImageBuffer::new: a canvas of the given size with every
pixel fully transparent black. -/
def ImageBuffer.new (w h : ℕ) : Image := ⟨w, h, fun _ _ => ⟨0, 0, 0, 0⟩⟩

/-- Modelled from the spec: one channel of source-over alpha blending
(section 4.3 step 4, out = src*src_alpha + dst*(1 - src_alpha)),
quantized back to an 8-bit channel.  This models the external
collaborator image::imageops::overlay's per-pixel blend, whose source
is not part of this repository. -/
def blendChan (s d aS : ℚ) : ℕ := (round (s * aS + d * (1 - aS))).toNat

/-- Modelled from the spec: source-over blending of one source pixel
onto one destination pixel (section 4.3 step 4). -/
def blend (dst src : Pixel) : Pixel :=
  let aS : ℚ := (src.a : ℚ) / 255
  ⟨blendChan src.r dst.r aS, blendChan src.g dst.g aS,
   blendChan src.b dst.b aS, blendChan src.a dst.a aS⟩

/-- Modelled from the spec: image::imageops::overlay(bottom, top, x, y)
(section 4.3 step 4): source-over composite of top onto bottom at the
given signed offset, out-of-canvas regions clipped silently. -/
def overlay (bottom top : Image) (x y : ℤ) : Image :=
  { bottom with
    pix := fun px py =>
      if px < bottom.width ∧ py < bottom.height ∧
         x ≤ (px : ℤ) ∧ (px : ℤ) < x + top.width ∧
         y ≤ (py : ℤ) ∧ (py : ℤ) < y + top.height then
        blend (bottom.pix px py) (top.pix ((px : ℤ) - x).toNat ((py : ℤ) - y).toNat)
      else bottom.pix px py }

/-- Resolved transform of a layer at one frame, from src/lib.rs. -/
structure Transform where
  position : Vec2
  anchor_point : Vec2
  scale : Vec2
  rotation : FV
  opacity : FV
  deriving DecidableEq, Repr

/-- One animation layer, from src/lib.rs (the transform is kept as the
raw JSON subtree, exactly as in the source). -/
structure Layer where
  start_frame : FV
  end_frame : FV
  transform : Value
  asset_id : Option String

/-- The asset store: lookup of decoded images by asset id, modelling
HashMap String Asset with Asset holding one decoded image. -/
def AssetMap : Type := String → Option Image

/-- parse_vec2 from src/lib.rs. -/
def parse_vec2 (v : Value) : Vec2 :=
  if v.is_array then
    ⟨FV.fin ((v.idx 0).as_f64.getD 0), FV.fin ((v.idx 1).as_f64.getD 0)⟩
  else if v.is_object then
    ⟨FV.fin ((v.index "x").as_f64.getD 0), FV.fin ((v.index "y").as_f64.getD 0)⟩
  else
    ⟨FV.fin 0, FV.fin 0⟩

/-- The keyframe-scanning loop shared by interpolate_vec2 and
interpolate_f32 (src/lib.rs lines 307-314 and 338-345): prev is
updated while the keyframe time is at most the frame, otherwise next
is set and the loop breaks.  Both accumulators start at the first
keyframe and the scan runs over the whole array, as in the source. -/
def scanKeyframes (frame : FV) (prev next : Value) : List Value → Value × Value
  | [] => (prev, next)
  | k :: rest =>
      if FV.ble (FV.fin ((k.index "t").as_f64.getD 0)) frame then
        scanKeyframes frame k next rest
      else
        (prev, k)

/-- interpolate_f32 from src/lib.rs lines 332-358.  On an animated
empty track the Rust code panics indexing element 0 of an empty Vec;
that unreachable case (the spec requires animated tracks non-empty) is
mapped to NaN and no claim depends on it. -/
def interpolate_f32 (keyframes : Value) (frame : FV) : FV :=
  match keyframes.as_array with
  | some kfs =>
      match kfs with
      | [] => FV.nan
      | k0 :: _ =>
          let pn := scanKeyframes frame k0 k0 kfs
          let start_time := FV.fin ((pn.1.index "t").as_f64.getD 0)
          let end_time := FV.fin ((pn.2.index "t").as_f64.getD 0)
          let progress := FV.div (FV.sub frame start_time) (FV.sub end_time start_time)
          let start_value := FV.fin (((pn.1.index "s").idx 0).as_f64.getD 0)
          let end_value := FV.fin (((pn.2.index "e").idx 0).as_f64.getD 0)
          FV.add start_value (FV.mul (FV.sub end_value start_value) progress)
  | none => FV.fin (keyframes.as_f64.getD 0)

/-- interpolate_vec2 from src/lib.rs lines 301-330 (same scan, values
read through parse_vec2 and interpolated per axis). -/
def interpolate_vec2 (keyframes : Value) (frame : FV) : Vec2 :=
  match keyframes.as_array with
  | some kfs =>
      match kfs with
      | [] => ⟨FV.nan, FV.nan⟩
      | k0 :: _ =>
          let pn := scanKeyframes frame k0 k0 kfs
          let start_time := FV.fin ((pn.1.index "t").as_f64.getD 0)
          let end_time := FV.fin ((pn.2.index "t").as_f64.getD 0)
          let progress := FV.div (FV.sub frame start_time) (FV.sub end_time start_time)
          let start_value := parse_vec2 (pn.1.index "s")
          let end_value := parse_vec2 (pn.2.index "e")
          ⟨FV.add start_value.x (FV.mul (FV.sub end_value.x start_value.x) progress),
           FV.add start_value.y (FV.mul (FV.sub end_value.y start_value.y) progress)⟩
  | none => parse_vec2 keyframes

/-- The position block of parse_transform (src/lib.rs lines 224-234). -/
def resolvePosition (transform_data : Value) (frame : FV) : Vec2 :=
  match transform_data.get "p" with
  | some p =>
      if (p.index "a").as_i64.getD 0 = 1 then interpolate_vec2 (p.index "k") frame
      else parse_vec2 (p.index "k")
  | none => ⟨FV.fin 0, FV.fin 0⟩

/-- The scale block of parse_transform (src/lib.rs lines 236-254):
percentages are divided by 100. -/
def resolveScale (transform_data : Value) (frame : FV) : Vec2 :=
  match transform_data.get "s" with
  | some s =>
      if (s.index "a").as_i64.getD 0 = 1 then
        let scale_vec := interpolate_vec2 (s.index "k") frame
        ⟨FV.div scale_vec.x (FV.fin 100), FV.div scale_vec.y (FV.fin 100)⟩
      else
        let scale_vec := parse_vec2 (s.index "k")
        ⟨FV.div scale_vec.x (FV.fin 100), FV.div scale_vec.y (FV.fin 100)⟩
  | none => ⟨FV.fin 1, FV.fin 1⟩

/-- The anchor-point block of parse_transform (src/lib.rs lines 256-266). -/
def resolveAnchor (transform_data : Value) (frame : FV) : Vec2 :=
  match transform_data.get "a" with
  | some a =>
      if (a.index "a").as_i64.getD 0 = 1 then interpolate_vec2 (a.index "k") frame
      else parse_vec2 (a.index "k")
  | none => ⟨FV.fin 0, FV.fin 0⟩

/-- The rotation block of parse_transform (src/lib.rs lines 268-278). -/
def resolveRotation (transform_data : Value) (frame : FV) : FV :=
  match transform_data.get "r" with
  | some r =>
      if (r.index "a").as_i64.getD 0 = 1 then interpolate_f32 (r.index "k") frame
      else FV.fin ((r.index "k").as_f64.getD 0)
  | none => FV.fin 0

/-- The opacity block of parse_transform (src/lib.rs lines 280-290):
divided by 100 and clamped to the unit interval. -/
def resolveOpacity (transform_data : Value) (frame : FV) : FV :=
  match transform_data.get "o" with
  | some o =>
      if (o.index "a").as_i64.getD 0 = 1 then
        FV.clamp (FV.div (interpolate_f32 (o.index "k") frame) (FV.fin 100)) (FV.fin 0) (FV.fin 1)
      else
        FV.clamp (FV.div (FV.fin ((o.index "k").as_f64.getD 100)) (FV.fin 100)) (FV.fin 0) (FV.fin 1)
  | none => FV.fin 1

/-- The transform record built by parse_transform. -/
def resolve_transform (transform_data : Value) (frame : FV) : Transform :=
  { position := resolvePosition transform_data frame
    anchor_point := resolveAnchor transform_data frame
    scale := resolveScale transform_data frame
    rotation := resolveRotation transform_data frame
    opacity := resolveOpacity transform_data frame }

/-- parse_transform from src/lib.rs lines 223-299.  Its Rust signature
is fallible (Result) but every branch of the body ends in Ok. -/
def parse_transform (transform_data : Value) (frame : FV) : Except String Transform :=
  .ok (resolve_transform transform_data frame)

/-- The scale guard at the top of composite_layer (src/lib.rs lines
165-170): keyed on the x component only, and resetting both components. -/
def composite_scale_guard (scale : Vec2) : Vec2 :=
  if FV.blt (FV.abs scale.x) (FV.fin 1) then ⟨FV.fin 1, FV.fin 1⟩ else scale

/-- The target pixel dimensions composite_layer passes to the resampler
(src/lib.rs lines 172-173): f32 products cast to u32 (truncation). -/
def scaled_dims (width height : ℕ) (scale : Vec2) : ℕ × ℕ :=
  let sc := composite_scale_guard scale
  (FV.toU32 (FV.mul (FV.fin width) (FV.abs sc.x)),
   FV.toU32 (FV.mul (FV.fin height) (FV.abs sc.y)))

/-- Modelled from the spec's scope: round(source * |scale|) target
dimensions as the claim words them (spec section 4.3 step 1), for
comparison against scaled_dims. -/
def spec_target_dims (width height : ℕ) (sx sy : ℚ) : ℕ × ℕ :=
  ((round ((width : ℚ) * |sx|)).toNat, (round ((height : ℚ) * |sy|)).toNat)

/-- The resample-and-rotate front half of composite_layer (src/lib.rs
lines 162-188).  The Lanczos resampler and the bilinear rotator are
external collaborators (image/imageproc crates); they are parameters. -/
def layer_render (resize : Image → ℕ → ℕ → Image) (rotate : Image → FV → Image)
    (layer_image : Image) (transform : Transform) : Image :=
  let dims := scaled_dims layer_image.width layer_image.height transform.scale
  let resized_image := resize layer_image dims.1 dims.2
  if FV.bne transform.rotation (FV.fin 0) then rotate resized_image transform.rotation
  else resized_image

/-- The paint origin x (src/lib.rs lines 191-194 and the i64 cast at
line 197). -/
def paint_x (transform : Transform) : ℤ :=
  FV.toI64 (FV.sub transform.position.x transform.anchor_point.x)

/-- The paint origin y. -/
def paint_y (transform : Transform) : ℤ :=
  FV.toI64 (FV.sub transform.position.y transform.anchor_point.y)

/-- composite_layer up to and including the overlay (src/lib.rs lines
162-197), before the opacity pass. -/
def composite_overlayed (resize : Image → ℕ → ℕ → Image) (rotate : Image → FV → Image)
    (base_image layer_image : Image) (transform : Transform) : Image :=
  overlay base_image (layer_render resize rotate layer_image transform)
    (paint_x transform) (paint_y transform)

/-- composite_layer from src/lib.rs lines 157-205: overlay, then, when
opacity < 1.0, the alpha pass over every pixel of the base canvas
(pixels_mut iterates the whole buffer). -/
def composite_layer (resize : Image → ℕ → ℕ → Image) (rotate : Image → FV → Image)
    (base_image layer_image : Image) (transform : Transform) : Image :=
  let out := composite_overlayed resize rotate base_image layer_image transform
  if FV.blt transform.opacity (FV.fin 1) then
    { out with
      pix := fun px py =>
        if px < out.width ∧ py < out.height then
          let p := out.pix px py
          ⟨p.r, p.g, p.b, FV.toU8 (FV.mul (FV.fin p.a) transform.opacity)⟩
        else out.pix px py }
  else out

/-- The active-interval test of render_frame (src/lib.rs line 144):
frame as f32 at least the in-point and at most the out-point. -/
def layerActive (frame_number : ℕ) (layer : Layer) : Bool :=
  FV.ble layer.start_frame (FV.fin frame_number) &&
    FV.ble (FV.fin frame_number) layer.end_frame

/-- Whether the layer carries an asset id that resolves in the store
(src/lib.rs lines 145-146). -/
def layerResolvable (assets : AssetMap) (layer : Layer) : Bool :=
  match layer.asset_id with
  | some asset_id => (assets asset_id).isSome
  | none => false

/-- The body of render_frame's per-layer loop iteration, as the pure
state transformer it is (the only fallible call, parse_transform,
always returns Ok). -/
def composite_step (resize : Image → ℕ → ℕ → Image) (rotate : Image → FV → Image)
    (assets : AssetMap) (frame_number : ℕ) (image : Image) (layer : Layer) : Image :=
  if layerActive frame_number layer then
    match layer.asset_id with
    | some asset_id =>
        match assets asset_id with
        | some asset => composite_layer resize rotate image asset
            (resolve_transform layer.transform (FV.fin frame_number))
        | none => image
    | none => image
  else image

/-- render_frame from src/lib.rs lines 134-155: a fresh transparent
canvas, then the layer list iterated in reverse storage order, each
active resolvable layer composited in place. -/
def render_frame (resize : Image → ℕ → ℕ → Image) (rotate : Image → FV → Image)
    (width height : ℕ) (assets : AssetMap) (layers : List Layer)
    (frame_number : ℕ) : Except String Image :=
  layers.reverse.foldlM
    (fun image layer =>
      if layerActive frame_number layer then
        match layer.asset_id with
        | some asset_id =>
            match assets asset_id with
            | some asset =>
                match parse_transform layer.transform (FV.fin frame_number) with
                | .ok transform => .ok (composite_layer resize rotate image asset transform)
                | .error e => .error e
            | none => .ok image
        | none => .ok image
      else .ok image)
    (ImageBuffer.new width height)

/-- The error-free denotation of render_frame: the same reverse fold
with the pure per-layer step. -/
def render_pure (resize : Image → ℕ → ℕ → Image) (rotate : Image → FV → Image)
    (width height : ℕ) (assets : AssetMap) (layers : List Layer)
    (frame_number : ℕ) : Image :=
  layers.reverse.foldl (composite_step resize rotate assets frame_number)
    (ImageBuffer.new width height)

/-- parse_layers from src/lib.rs lines 360-374. -/
def parse_layers (animation_data : Value) : Except String (List Layer) :=
  match (animation_data.index "layers").as_array with
  | none => .error "No layers found"
  | some layers =>
      .ok (layers.map fun layer =>
        { start_frame := FV.fin ((layer.index "ip").as_f64.getD 0)
          end_frame := FV.fin ((layer.index "op").as_f64.getD 0)
          transform := layer.index "ks"
          asset_id := (layer.index "refId").as_str })

/-- One iteration of load_assets' loop (src/lib.rs lines 115-128).
image::open (file read plus decode) is an external collaborator,
modelled by fs: the decoded image when the path resolves to a readable,
decodable file, none otherwise. -/
def load_asset_step (assets_path : String) (fs : String → Option Image)
    (assets : AssetMap) (asset : Value) : Except String AssetMap :=
  match (asset.index "id").as_str with
  | none => .error "Missing asset id"
  | some id =>
      match (asset.index "p").as_str with
      | none => .error "Missing asset path"
      | some p =>
          match fs (assets_path ++ "/" ++ p) with
          | none => .error ("image error: " ++ (assets_path ++ "/" ++ p))
          | some image => .ok (fun k => if k = id then some image else assets k)

/-- load_assets from src/lib.rs lines 109-131. -/
def load_assets (assets_path : String) (animation_data : Value)
    (fs : String → Option Image) : Except String AssetMap :=
  match (animation_data.index "assets").as_array with
  | none => .ok (fun _ => none)
  | some assets_array =>
      assets_array.foldlM (load_asset_step assets_path fs) (fun _ => none)

/-- The canvas width get_all_frames reads (src/lib.rs line 392); the
u64-to-u32 cast wraps. -/
def docW (animation_data : Value) : ℕ :=
  ((animation_data.index "w").as_u64.getD 540) % 4294967296

/-- The canvas height (src/lib.rs line 393). -/
def docH (animation_data : Value) : ℕ :=
  ((animation_data.index "h").as_u64.getD 800) % 4294967296

/-- The total frame count (src/lib.rs line 394): the op field as f64,
cast (saturating, truncating) to u32. -/
def docTotalFrames (animation_data : Value) : ℕ :=
  FV.toU32 (FV.fin ((animation_data.index "op").as_f64.getD 0))

/-- get_all_frames from src/lib.rs lines 387-403.  The JSON file read
(load_bodymovin_json) is external I/O; the model receives the parsed
document.  rayon's into_par_iter().map().collect::<Result<Vec,_>>()
yields the results in ascending index order (fail-fast on error),
which mapM over List.range models. -/
def get_all_frames (animation_data : Value) (assets_dir : String)
    (fs : String → Option Image) (resize : Image → ℕ → ℕ → Image)
    (rotate : Image → FV → Image) : Except String (List Image) := do
  let assets ← load_assets assets_dir animation_data fs
  let layers ← parse_layers animation_data
  (List.range (docTotalFrames animation_data)).mapM
    (fun frame_number =>
      render_frame resize rotate (docW animation_data) (docH animation_data)
        assets layers frame_number)

/-- A concrete instantiation of the external resampler, used only to
evaluate closed statements: reinterpret the pixel grid at the target
dimensions. -/
def trivResize (img : Image) (w h : ℕ) : Image := ⟨w, h, img.pix⟩

/-- A concrete instantiation of the external rotator, used only to
evaluate closed statements. -/
def trivRotate (img : Image) (_angle : FV) : Image := img

/-- A keyframe object with time t, start value [s] and end value [e],
used in the closed evaluations below. -/
def mkKeyframe (t s e : ℚ) : Value :=
  Value.obj [("t", Value.num t), ("s", Value.arr [Value.num s]),
             ("e", Value.arr [Value.num e])]

/-- A two-keyframe track: (t=10, s=1, e=5) then (t=20, s=2, e=3). -/
def demoTrack : Value := Value.arr [mkKeyframe 10 1 5, mkKeyframe 20 2 3]

/-- The document used in C7's counterexample: an animated opacity
track with one keyframe (t=0, s=[50], e=[80]). -/
def c7doc : Value :=
  Value.obj [("o", Value.obj [("a", Value.num 1),
                              ("k", Value.arr [mkKeyframe 0 50 80])])]

/-- The base image on which C4's counterexample composites: a 2x1
canvas whose right pixel has alpha 200 and is not touched by the
overlay. -/
def c4base : Image := ⟨2, 1, fun x _ => if x = 0 then ⟨0, 0, 0, 0⟩ else ⟨0, 0, 0, 200⟩⟩

/-- The 1x1 fully opaque source layer of C4's counterexample. -/
def c4layer : Image := ⟨1, 1, fun _ _ => ⟨10, 20, 30, 255⟩⟩

/-- An identity-like transform with opacity 1/2. -/
def c4transform : Transform :=
  ⟨⟨FV.fin 0, FV.fin 0⟩, ⟨FV.fin 0, FV.fin 0⟩, ⟨FV.fin 1, FV.fin 1⟩, FV.fin 0, FV.fin (1/2)⟩

/-- First-stored layer of C5's witness document, active on [0,5]. -/
def c5layer1 : Layer := ⟨FV.fin 0, FV.fin 5, Value.obj [], some "a1"⟩

/-- Second-stored layer of C5's witness document. -/
def c5layer2 : Layer := ⟨FV.fin 0, FV.fin 5, Value.obj [], some "a2"⟩

/-- The first layer's 1x1 opaque image. -/
def c5img1 : Image := ⟨1, 1, fun _ _ => ⟨9, 8, 7, 255⟩⟩

/-- The second layer's 1x1 opaque image. -/
def c5img2 : Image := ⟨1, 1, fun _ _ => ⟨1, 2, 3, 255⟩⟩

/-- The witness asset store mapping a1 and a2. -/
def c5assets : AssetMap :=
  fun k => if k = "a1" then some c5img1 else if k = "a2" then some c5img2 else none

/-- The identity transform both witness layers resolve to. -/
def c5t : Transform := resolve_transform (Value.obj []) (FV.fin 3)

/-- The first layer's transformed image in the witness. -/
def c5R : Image := layer_render trivResize trivRotate c5img1 c5t

/-- The two-frame document of C6's witness: an empty layer list, op =
2, canvas 1x1. -/
def c6doc : Value :=
  Value.obj [("layers", Value.arr []), ("op", Value.num 2),
             ("w", Value.num 1), ("h", Value.num 1)]

/-- An asset entry on which load_assets fails: missing id, missing
path, or a path whose file cannot be read or decoded (fs yields
none). -/
def badAsset (dir : String) (fs : String → Option Image) (asset : Value) : Prop :=
  (asset.index "id").as_str = none ∨ (asset.index "p").as_str = none ∨
  ∃ p, (asset.index "p").as_str = some p ∧ fs (dir ++ "/" ++ p) = none

/-- A document whose single asset entry has no id. -/
def c9docBad : Value :=
  Value.obj [("assets", Value.arr [Value.obj [("p", Value.str "x.png")]])]

/-- A document with one well-formed asset entry. -/
def c9docGood : Value :=
  Value.obj [("assets", Value.arr
    [Value.obj [("id", Value.str "img_0"), ("p", Value.str "x.png")]])]

/-- The witness filesystem: one decodable image at A/x.png. -/
def c9fs : String → Option Image :=
  fun s => if s = "A/x.png" then some (ImageBuffer.new 1 1) else none

theorem FV.ble_true_blt_false {a b : FV} (h : FV.ble a b = true) :
    FV.blt b a = false := by
  cases a <;> cases b <;> revert h <;>
    simp [FV.ble, FV.blt, not_lt] <;>
    (try (rename_i p q; cases p <;> cases q <;> decide))

theorem FV.toU32_fin_eq (q : ℚ) (h0 : 0 ≤ q) (hlt : q < 4294967296) :
    FV.toU32 (FV.fin q) = (⌊q⌋).toNat := by
  unfold FV.toU32 qtrunc
  by_cases hq : q ≤ 0
  · have hz : q = 0 := le_antisymm hq h0
    subst hz; simp
  · have h1 : ⌊q⌋ < 4294967296 := by
      have h2 : (⌊q⌋ : ℚ) ≤ q := Int.floor_le q
      exact_mod_cast lt_of_le_of_lt h2 hlt
    have h3 : (⌊q⌋).toNat ≤ 4294967295 := by omega
    simp [hq, h0, min_eq_left h3]

/-- Claim C10: the compositor's scale guard is keyed on the x axis
alone and couples both axes: when the absolute scale x is below 1.0
both components are replaced by 1.0, and when it is at least 1.0
nothing is clamped, so a sub-unity scale y is honored in that case. -/
theorem C10_scale_guard_x_keyed (s : Vec2) :
    (FV.blt (FV.abs s.x) (FV.fin 1) = true →
      composite_scale_guard s = ⟨FV.fin 1, FV.fin 1⟩) ∧
    (FV.ble (FV.fin 1) (FV.abs s.x) = true → composite_scale_guard s = s) := by
  constructor
  · intro h
    simp [composite_scale_guard, h]
  · intro h
    simp [composite_scale_guard, FV.ble_true_blt_false h]

/-- Witness for C10 at concrete scales (1/2, 3) and (2, 1/2). -/
theorem C10_scale_guard_x_keyed_witness :
    composite_scale_guard ⟨FV.fin (1/2), FV.fin 3⟩ = ⟨FV.fin 1, FV.fin 1⟩ ∧
    composite_scale_guard ⟨FV.fin 2, FV.fin (1/2)⟩ = ⟨FV.fin 2, FV.fin (1/2)⟩ :=
  ⟨(C10_scale_guard_x_keyed ⟨FV.fin (1/2), FV.fin 3⟩).1
     (by norm_num [FV.blt, FV.abs, abs_of_nonneg]),
   (C10_scale_guard_x_keyed ⟨FV.fin 2, FV.fin (1/2)⟩).2
     (by norm_num [FV.ble, FV.abs, abs_of_nonneg])⟩

/-- Claim C3, counterexample: the code does not honor sub-unity scale
(0.5 is floored to 1.0, giving 100x100 instead of the claimed 50x50)
and converts by truncation, not rounding (5 * 1.5 = 7.5 gives 7, the
claimed round gives 8). -/
theorem C3_dims_counterexample :
    scaled_dims 100 100 ⟨FV.fin (1/2), FV.fin (1/2)⟩ = (100, 100) ∧
    spec_target_dims 100 100 (1/2) (1/2) = (50, 50) ∧
    scaled_dims 100 100 ⟨FV.fin (1/2), FV.fin (1/2)⟩ ≠
      spec_target_dims 100 100 (1/2) (1/2) ∧
    scaled_dims 5 5 ⟨FV.fin (3/2), FV.fin (3/2)⟩ = (7, 7) ∧
    spec_target_dims 5 5 (3/2) (3/2) = (8, 8) := by
  have h1 : scaled_dims 100 100 ⟨FV.fin (1/2), FV.fin (1/2)⟩ = (100, 100) := by
    norm_num [scaled_dims, composite_scale_guard, FV.abs, FV.blt, FV.mul, FV.toU32,
      qtrunc, abs_of_nonneg]
    all_goals rfl
  have h2 : spec_target_dims 100 100 (1/2) (1/2) = (50, 50) := by
    norm_num [spec_target_dims, abs_of_nonneg, round_eq]
    all_goals rfl
  have h4 : scaled_dims 5 5 ⟨FV.fin (3/2), FV.fin (3/2)⟩ = (7, 7) := by
    norm_num [scaled_dims, composite_scale_guard, FV.abs, FV.blt, FV.mul, FV.toU32,
      qtrunc, abs_of_nonneg]
    all_goals rfl
  have h5 : spec_target_dims 5 5 (3/2) (3/2) = (8, 8) := by
    norm_num [spec_target_dims, abs_of_nonneg, round_eq]
    all_goals rfl
  refine ⟨h1, h2, ?_, h4, h5⟩
  rw [h1, h2]
  norm_num

/-- Claim C3 as amended: the target dimensions are the truncations
(not roundings) of source times absolute scale computed after the
guard: when the absolute x scale is at least 1 the resolved scale is
used as is, and when it is below 1 both axes are floored to 1.0 so the
target equals the source size. -/
theorem C3_dims_floor_and_guard (w h : ℕ) (qx qy : ℚ) :
    (1 ≤ |qx| → (w : ℚ) * |qx| < 4294967296 → (h : ℚ) * |qy| < 4294967296 →
      scaled_dims w h ⟨FV.fin qx, FV.fin qy⟩ =
        ((⌊(w : ℚ) * |qx|⌋).toNat, (⌊(h : ℚ) * |qy|⌋).toNat)) ∧
    (|qx| < 1 → w < 4294967296 → h < 4294967296 →
      scaled_dims w h ⟨FV.fin qx, FV.fin qy⟩ = (w, h)) := by
  constructor
  · intro h1 hwx hhy
    have hnot : ¬ (|qx| < 1) := not_lt.mpr h1
    have hx0 : (0 : ℚ) ≤ (w : ℚ) * |qx| := by positivity
    have hy0 : (0 : ℚ) ≤ (h : ℚ) * |qy| := by positivity
    simp [scaled_dims, composite_scale_guard, FV.abs, FV.blt, FV.mul, hnot,
      FV.toU32_fin_eq _ hx0 hwx, FV.toU32_fin_eq _ hy0 hhy]
  · intro h1 hw hh
    have hw0 : (0 : ℚ) ≤ (w : ℚ) := by positivity
    have hh0 : (0 : ℚ) ≤ (h : ℚ) := by positivity
    have hwq : (w : ℚ) < 4294967296 := by exact_mod_cast hw
    have hhq : (h : ℚ) < 4294967296 := by exact_mod_cast hh
    simp [scaled_dims, composite_scale_guard, FV.abs, FV.blt, FV.mul, h1,
      FV.toU32_fin_eq _ hw0 hwq, FV.toU32_fin_eq _ hh0 hhq]

/-- Witness for C3's amended statement at scale 2 (no guard) and at
scale (1/2, 3) (guard fires). -/
theorem C3_dims_floor_and_guard_witness :
    scaled_dims 100 100 ⟨FV.fin 2, FV.fin 2⟩ =
      ((⌊((100 : ℕ) : ℚ) * |(2 : ℚ)|⌋).toNat, (⌊((100 : ℕ) : ℚ) * |(2 : ℚ)|⌋).toNat) ∧
    scaled_dims 64 64 ⟨FV.fin (1/2), FV.fin 3⟩ = (64, 64) :=
  ⟨(C3_dims_floor_and_guard 100 100 2 2).1 (by norm_num) (by norm_num) (by norm_num),
   (C3_dims_floor_and_guard 64 64 (1/2) 3).2
     (by norm_num [abs_of_nonneg]) (by norm_num) (by norm_num)⟩

/-- Claim C1: the interpolator does not clamp to the track endpoints.
On the track (t=10, s=1, e=5), (t=20, s=2, e=3): at the keyframe times
it returns the keyframe values 1 and 2, but past the last keyframe
(frame 30) it returns -1 instead of the last value 2 (the scan leaves
next at the first keyframe, extrapolating), and before the first
keyframe (frame 5) the zero-width bounds divide by zero and return
negative infinity instead of the first value 1. -/
theorem C1_interpolation_extrapolates :
    interpolate_f32 demoTrack (FV.fin 10) = FV.fin 1 ∧
    interpolate_f32 demoTrack (FV.fin 20) = FV.fin 2 ∧
    interpolate_f32 demoTrack (FV.fin 30) = FV.fin (-1) ∧
    FV.fin (-1) ≠ FV.fin 2 ∧
    interpolate_f32 demoTrack (FV.fin 5) = FV.inf false ∧
    FV.inf false ≠ FV.fin 1 := by
  refine ⟨?_, ?_, ?_, by norm_num, ?_, by simp⟩ <;>
  · simp [interpolate_f32, scanKeyframes, demoTrack, mkKeyframe, Value.index,
      Value.get, Value.lookup, Value.as_f64, Value.idx, Value.as_array,
      FV.add, FV.sub, FV.neg, FV.mul, FV.div, FV.ble, FV.blt, FV.abs]
    try norm_num [Value.lookup, Value.as_f64, FV.add, FV.sub, FV.neg, FV.mul, FV.div]
    try simp [Value.lookup, Value.as_f64, FV.add, FV.sub, FV.neg, FV.mul, FV.div]
    try norm_num [Value.lookup, Value.as_f64, FV.add, FV.sub, FV.neg, FV.mul, FV.div]

/-- Claim C2: the degenerate collapsed case prev.time = next.time is
not guarded: on a single-keyframe track (t=0, s=5, e=7) at frame 0 the
code computes progress = 0/0 = NaN and returns NaN rather than the
finite keyframe value 5, for the scalar and the vector interpolator
alike. -/
theorem C2_degenerate_progress_nan :
    interpolate_f32 (Value.arr [mkKeyframe 0 5 7]) (FV.fin 0) = FV.nan ∧
    FV.nan ≠ FV.fin 5 ∧
    interpolate_vec2 (Value.arr [mkKeyframe 0 5 7]) (FV.fin 0) = ⟨FV.nan, FV.nan⟩ := by
  refine ⟨?_, by simp, ?_⟩ <;>
  · simp [interpolate_f32, interpolate_vec2, parse_vec2, scanKeyframes, mkKeyframe,
      Value.index, Value.get, Value.lookup, Value.as_f64, Value.idx, Value.as_array,
      Value.is_array, FV.add, FV.sub, FV.neg, FV.mul, FV.div, FV.ble, FV.blt, FV.abs]
    try norm_num [Value.lookup, Value.as_f64, FV.add, FV.sub, FV.neg, FV.mul, FV.div]
    try simp [Value.lookup, Value.as_f64, FV.add, FV.sub, FV.neg, FV.mul, FV.div]
    try norm_num [Value.lookup, Value.as_f64, FV.add, FV.sub, FV.neg, FV.mul, FV.div]

theorem FV.clamp01_cases (v : FV) :
    FV.clamp v (FV.fin 0) (FV.fin 1) = FV.nan ∨
      FV.inUnit (FV.clamp v (FV.fin 0) (FV.fin 1)) := by
  cases v with
  | nan => left; rfl
  | inf p =>
      right
      cases p <;> exact ⟨_, rfl, by norm_num⟩
  | fin q =>
      right
      by_cases h0 : q < 0
      · exact ⟨0, by simp [FV.clamp, FV.blt, h0], by norm_num, by norm_num⟩
      · by_cases h1 : 1 < q
        · exact ⟨1, by simp [FV.clamp, FV.blt, h0, h1], by norm_num, by norm_num⟩
        · exact ⟨q, by simp [FV.clamp, FV.blt, h0, h1], not_lt.mp h0, not_lt.mp h1⟩

/-- Claim C7, counterexample: the resolved opacity is not always in
[0,1].  On a degenerate animated track the interpolator returns NaN
(claim C2's bug); NaN / 100 is NaN, and Rust's f32::clamp returns NaN
on NaN input, so the resolved opacity is NaN, which lies in no
interval. -/
theorem C7_opacity_nan_counterexample :
    (parse_transform c7doc (FV.fin 0)).map Transform.opacity = .ok FV.nan ∧
    ¬ FV.inUnit FV.nan := by
  constructor
  · simp [parse_transform, resolve_transform, resolveOpacity, c7doc, mkKeyframe,
      Except.map, interpolate_f32, scanKeyframes, Value.index, Value.get,
      Value.lookup, Value.as_f64, Value.as_i64, Value.idx, Value.as_array,
      FV.add, FV.sub, FV.neg, FV.mul, FV.div, FV.ble, FV.blt, FV.clamp]
    try norm_num [Value.lookup, Value.as_f64, FV.add, FV.sub, FV.neg, FV.mul,
      FV.div, FV.clamp, FV.blt]
    try simp [Value.lookup, Value.as_f64, FV.add, FV.sub, FV.neg, FV.mul,
      FV.div, FV.clamp, FV.blt]
    try norm_num [Value.lookup, Value.as_f64, FV.add, FV.sub, FV.neg, FV.mul,
      FV.div, FV.clamp, FV.blt]
  · intro h
    obtain ⟨q, hq, -, -⟩ := h
    exact FV.noConfusion hq

/-- Claim C7 as amended: for every transform value and frame the
resolved opacity is either NaN (possible only through a degenerate
animated track, claim C2's bug) or a finite value in [0,1]; the
claimed clamping law holds whenever the interpolated raw value is not
NaN. -/
theorem C7_opacity_clamped_or_nan (d : Value) (f : FV) :
    resolveOpacity d f = FV.nan ∨ FV.inUnit (resolveOpacity d f) := by
  unfold resolveOpacity
  cases hg : d.get "o" with
  | none => right; exact ⟨1, rfl, by norm_num, by norm_num⟩
  | some o =>
      by_cases ha : (o.index "a").as_i64.getD 0 = 1 <;>
        simp [ha] <;> apply FV.clamp01_cases

/-- Claim C8: absent transform properties resolve to their neutral
defaults and transform resolution has no error path (every branch of
parse_transform returns Ok). -/
theorem C8_missing_property_defaults (d : Value) (f : FV) :
    (∃ t, parse_transform d f = .ok t) ∧
    (d.get "p" = none → resolvePosition d f = ⟨FV.fin 0, FV.fin 0⟩) ∧
    (d.get "a" = none → resolveAnchor d f = ⟨FV.fin 0, FV.fin 0⟩) ∧
    (d.get "s" = none → resolveScale d f = ⟨FV.fin 1, FV.fin 1⟩) ∧
    (d.get "r" = none → resolveRotation d f = FV.fin 0) ∧
    (d.get "o" = none → resolveOpacity d f = FV.fin 1) := by
  refine ⟨⟨_, rfl⟩, ?_, ?_, ?_, ?_, ?_⟩ <;> intro h <;>
    simp [resolvePosition, resolveAnchor, resolveScale, resolveRotation,
      resolveOpacity, h]

/-- Witness for C8 on the empty transform object at frame 0. -/
theorem C8_missing_property_defaults_witness :
    resolvePosition (Value.obj []) (FV.fin 0) = ⟨FV.fin 0, FV.fin 0⟩ ∧
    resolveAnchor (Value.obj []) (FV.fin 0) = ⟨FV.fin 0, FV.fin 0⟩ ∧
    resolveScale (Value.obj []) (FV.fin 0) = ⟨FV.fin 1, FV.fin 1⟩ ∧
    resolveRotation (Value.obj []) (FV.fin 0) = FV.fin 0 ∧
    resolveOpacity (Value.obj []) (FV.fin 0) = FV.fin 1 :=
  ⟨(C8_missing_property_defaults (Value.obj []) (FV.fin 0)).2.1 rfl,
   (C8_missing_property_defaults (Value.obj []) (FV.fin 0)).2.2.1 rfl,
   (C8_missing_property_defaults (Value.obj []) (FV.fin 0)).2.2.2.1 rfl,
   (C8_missing_property_defaults (Value.obj []) (FV.fin 0)).2.2.2.2.1 rfl,
   (C8_missing_property_defaults (Value.obj []) (FV.fin 0)).2.2.2.2.2 rfl⟩

theorem overlay_width (b t : Image) (x y : ℤ) : (overlay b t x y).width = b.width := rfl

theorem overlay_height (b t : Image) (x y : ℤ) : (overlay b t x y).height = b.height := rfl

theorem composite_overlayed_width (resize : Image → ℕ → ℕ → Image)
    (rotate : Image → FV → Image) (b l : Image) (t : Transform) :
    (composite_overlayed resize rotate b l t).width = b.width := rfl

theorem composite_overlayed_height (resize : Image → ℕ → ℕ → Image)
    (rotate : Image → FV → Image) (b l : Image) (t : Transform) :
    (composite_overlayed resize rotate b l t).height = b.height := rfl

/-- Claim C4, counterexample: compositing a 1x1 layer at the origin of
a 2x1 canvas with opacity 1/2 changes the alpha of canvas pixel (1,0),
which the overlay never touched, from 200 to 100: the opacity pass
runs over every canvas pixel (pixels_mut), not only the touched
region. -/
theorem C4_opacity_counterexample :
    (c4base.pix 1 0).a = 200 ∧
    ((composite_layer trivResize trivRotate c4base c4layer c4transform).pix 1 0).a = 100 ∧
    (100 : ℕ) ≠ 200 := by
  refine ⟨by norm_num [c4base], ?_, by norm_num⟩
  norm_num [composite_layer, composite_overlayed, overlay, layer_render,
    scaled_dims, composite_scale_guard, paint_x, paint_y, trivResize, trivRotate,
    FV.bne, FV.beq, FV.blt, FV.abs, FV.mul, FV.sub, FV.add, FV.neg, FV.toU32,
    FV.toU8, FV.toI64, qtrunc, c4base, c4layer, c4transform, abs_of_nonneg,
    blend, blendChan]
  all_goals rfl

/-- Claim C4 as amended: when the resolved opacity is below 1.0 the
alpha pass applies to every in-bounds pixel of the canvas, whether or
not this composite call's overlay touched it: each canvas pixel keeps
its color channels and has its alpha scaled by the opacity (f32
product cast to u8). -/
theorem C4_opacity_whole_canvas (resize : Image → ℕ → ℕ → Image)
    (rotate : Image → FV → Image) (base layer : Image) (t : Transform)
    (hop : FV.blt t.opacity (FV.fin 1) = true) (px py : ℕ)
    (hx : px < base.width) (hy : py < base.height) :
    (composite_layer resize rotate base layer t).pix px py =
      { r := ((composite_overlayed resize rotate base layer t).pix px py).r
        g := ((composite_overlayed resize rotate base layer t).pix px py).g
        b := ((composite_overlayed resize rotate base layer t).pix px py).b
        a := FV.toU8 (FV.mul
          (FV.fin ((composite_overlayed resize rotate base layer t).pix px py).a)
          t.opacity) } := by
  simp [composite_layer, hop, composite_overlayed_width,
    composite_overlayed_height, hx, hy]

/-- Witness for C4's amended statement on the concrete counterexample
canvas, at the untouched pixel (1,0). -/
theorem C4_opacity_whole_canvas_witness :
    (composite_layer trivResize trivRotate c4base c4layer c4transform).pix 1 0 =
      { r := ((composite_overlayed trivResize trivRotate c4base c4layer c4transform).pix 1 0).r
        g := ((composite_overlayed trivResize trivRotate c4base c4layer c4transform).pix 1 0).g
        b := ((composite_overlayed trivResize trivRotate c4base c4layer c4transform).pix 1 0).b
        a := FV.toU8 (FV.mul
          (FV.fin ((composite_overlayed trivResize trivRotate c4base c4layer c4transform).pix 1 0).a)
          c4transform.opacity) } :=
  C4_opacity_whole_canvas trivResize trivRotate c4base c4layer c4transform
    (by norm_num [FV.blt, c4transform]) 1 0
    (by norm_num [c4base]) (by norm_num [c4base])

theorem composite_layer_width (resize : Image → ℕ → ℕ → Image)
    (rotate : Image → FV → Image) (b l : Image) (t : Transform) :
    (composite_layer resize rotate b l t).width = b.width := by
  unfold composite_layer
  by_cases h : FV.blt t.opacity (FV.fin 1) <;> simp [h, composite_overlayed_width]

theorem composite_layer_height (resize : Image → ℕ → ℕ → Image)
    (rotate : Image → FV → Image) (b l : Image) (t : Transform) :
    (composite_layer resize rotate b l t).height = b.height := by
  unfold composite_layer
  by_cases h : FV.blt t.opacity (FV.fin 1) <;> simp [h, composite_overlayed_height]

theorem composite_step_width (resize : Image → ℕ → ℕ → Image)
    (rotate : Image → FV → Image) (assets : AssetMap) (n : ℕ)
    (img : Image) (l : Layer) :
    (composite_step resize rotate assets n img l).width = img.width := by
  unfold composite_step
  split
  · split
    · split
      · exact composite_layer_width _ _ _ _ _
      · rfl
    · rfl
  · rfl

theorem composite_step_height (resize : Image → ℕ → ℕ → Image)
    (rotate : Image → FV → Image) (assets : AssetMap) (n : ℕ)
    (img : Image) (l : Layer) :
    (composite_step resize rotate assets n img l).height = img.height := by
  unfold composite_step
  split
  · split
    · split
      · exact composite_layer_height _ _ _ _ _
      · rfl
    · rfl
  · rfl

theorem foldl_width (resize : Image → ℕ → ℕ → Image)
    (rotate : Image → FV → Image) (assets : AssetMap) (n : ℕ) :
    ∀ (l : List Layer) (img : Image),
      (l.foldl (composite_step resize rotate assets n) img).width = img.width := by
  intro l
  induction l with
  | nil => intro img; rfl
  | cons a r ih =>
      intro img
      simp [List.foldl, ih, composite_step_width]

theorem foldl_height (resize : Image → ℕ → ℕ → Image)
    (rotate : Image → FV → Image) (assets : AssetMap) (n : ℕ) :
    ∀ (l : List Layer) (img : Image),
      (l.foldl (composite_step resize rotate assets n) img).height = img.height := by
  intro l
  induction l with
  | nil => intro img; rfl
  | cons a r ih =>
      intro img
      simp [List.foldl, ih, composite_step_height]

theorem foldlM_ok {α β : Type} (g : β → α → β) (f : β → α → Except String β)
    (hf : ∀ b a, f b a = .ok (g b a)) :
    ∀ (l : List α) (b : β), l.foldlM f b = .ok (l.foldl g b) := by
  intro l
  induction l with
  | nil => intro b; rfl
  | cons a r ih =>
      intro b
      simp only [List.foldlM, List.foldl, hf, ih]
      rfl

theorem mapM_ok {α β : Type} (g : α → β) (f : α → Except String β)
    (hf : ∀ a, f a = .ok (g a)) :
    ∀ (l : List α), l.mapM f = .ok (l.map g) := by
  intro l
  induction l with
  | nil => rfl
  | cons a r ih =>
      rw [List.mapM_cons, hf, List.map_cons, ih]
      rfl

/-- The loop body of render_frame is total: it equals the pure
composite_step wrapped in Ok (parse_transform never fails). -/
theorem render_frame_ok (resize : Image → ℕ → ℕ → Image)
    (rotate : Image → FV → Image) (width height : ℕ) (assets : AssetMap)
    (layers : List Layer) (n : ℕ) :
    render_frame resize rotate width height assets layers n =
      .ok (render_pure resize rotate width height assets layers n) := by
  unfold render_frame render_pure
  apply foldlM_ok
  intro img l
  unfold composite_step
  split
  · split
    · split
      · rfl
      · rfl
    · rfl
  · rfl

/-- Source-over blending with a fully opaque source pixel yields the
source pixel. -/
theorem blend_full_alpha (dst src : Pixel) (h : src.a = 255) : blend dst src = src := by
  obtain ⟨r, g, b, a⟩ := src
  simp only [Pixel.mk.injEq] at h ⊢
  subst h
  unfold blend blendChan
  norm_num
  rfl

/-- Claim C5: render_frame iterates the layer list in reverse storage
order, so for a two-layer document the last-stored layer is composited
first (bottom) and the first-stored layer last (top); and wherever the
first-stored layer's transformed image is fully opaque inside its
painted footprint (its resolved opacity not below 1 so no alpha pass
runs), the final canvas pixel equals that layer's pixel, occluding the
later-stored layer regardless of what it painted there. -/
theorem C5_z_order_occlusion
    (resize : Image → ℕ → ℕ → Image) (rotate : Image → FV → Image)
    (w h : ℕ) (assets : AssetMap) (l1 l2 : Layer) (n : ℕ)
    (a1 : String) (img1 : Image) (t1 : Transform) (R : Image) (px py : ℕ)
    (h1 : layerActive n l1 = true) (h2 : layerActive n l2 = true)
    (ha1 : l1.asset_id = some a1) (hr1 : assets a1 = some img1)
    (hr2 : layerResolvable assets l2 = true)
    (ht1 : t1 = resolve_transform l1.transform (FV.fin n))
    (hR : R = layer_render resize rotate img1 t1)
    (hop : FV.blt t1.opacity (FV.fin 1) = false)
    (hpx : px < w) (hpy : py < h)
    (hx1 : paint_x t1 ≤ (px : ℤ)) (hx2 : (px : ℤ) < paint_x t1 + R.width)
    (hy1 : paint_y t1 ≤ (py : ℤ)) (hy2 : (py : ℤ) < paint_y t1 + R.height)
    (hfull255 : (R.pix ((px : ℤ) - paint_x t1).toNat ((py : ℤ) - paint_y t1).toNat).a = 255) :
    render_frame resize rotate w h assets [l1, l2] n =
      .ok (composite_step resize rotate assets n
        (composite_step resize rotate assets n (ImageBuffer.new w h) l2) l1) ∧
    (render_pure resize rotate w h assets [l1, l2] n).pix px py =
      R.pix ((px : ℤ) - paint_x t1).toNat ((py : ℤ) - paint_y t1).toNat := by
  have hpure : render_pure resize rotate w h assets [l1, l2] n =
      composite_step resize rotate assets n
        (composite_step resize rotate assets n (ImageBuffer.new w h) l2) l1 := rfl
  refine ⟨by rw [render_frame_ok, hpure], ?_⟩
  rw [hpure]
  set B := composite_step resize rotate assets n (ImageBuffer.new w h) l2 with hB
  have hBw : B.width = w := composite_step_width _ _ _ _ _ _
  have hBh : B.height = h := composite_step_height _ _ _ _ _ _
  rw [show composite_step resize rotate assets n B l1 =
      composite_layer resize rotate B img1 t1 by
    unfold composite_step
    rw [h1, ha1]
    simp [hr1, ht1]]
  rw [show composite_layer resize rotate B img1 t1 =
      overlay B R (paint_x t1) (paint_y t1) by
    unfold composite_layer
    rw [hop]
    simp [composite_overlayed, hR]]
  simp only [overlay]
  rw [if_pos ⟨hBw ▸ hpx, hBh ▸ hpy, hx1, hx2, hy1, hy2⟩]
  exact blend_full_alpha _ _ hfull255

/-- Witness for C5 on a 1x1 canvas with two overlapping opaque layers
at frame 3: the stored-earlier layer's pixel wins. -/
theorem C5_z_order_occlusion_witness :
    render_frame trivResize trivRotate 1 1 c5assets [c5layer1, c5layer2] 3 =
      .ok (composite_step trivResize trivRotate c5assets 3
        (composite_step trivResize trivRotate c5assets 3 (ImageBuffer.new 1 1) c5layer2)
        c5layer1) ∧
    (render_pure trivResize trivRotate 1 1 c5assets [c5layer1, c5layer2] 3).pix 0 0 =
      c5R.pix ((0 : ℤ) - paint_x c5t).toNat ((0 : ℤ) - paint_y c5t).toNat :=
  C5_z_order_occlusion trivResize trivRotate 1 1 c5assets c5layer1 c5layer2 3 "a1"
    c5img1 c5t c5R 0 0 rfl rfl rfl rfl rfl rfl rfl rfl
    (by norm_num) (by norm_num)
    (by norm_num [paint_x, c5t, resolve_transform, resolvePosition, resolveAnchor,
      Value.get, Value.lookup, FV.sub, FV.add, FV.neg, FV.toI64, qtrunc])
    (by norm_num [paint_x, c5R, c5t, c5img1, layer_render, scaled_dims,
      composite_scale_guard, trivResize, resolve_transform, resolvePosition,
      resolveAnchor, resolveScale, resolveRotation, Value.get, Value.lookup,
      FV.abs, FV.blt, FV.bne, FV.beq, FV.mul, FV.sub, FV.add, FV.neg, FV.toU32,
      FV.toI64, qtrunc, abs_of_nonneg])
    (by norm_num [paint_y, c5t, resolve_transform, resolvePosition, resolveAnchor,
      Value.get, Value.lookup, FV.sub, FV.add, FV.neg, FV.toI64, qtrunc])
    (by norm_num [paint_y, c5R, c5t, c5img1, layer_render, scaled_dims,
      composite_scale_guard, trivResize, resolve_transform, resolvePosition,
      resolveAnchor, resolveScale, resolveRotation, Value.get, Value.lookup,
      FV.abs, FV.blt, FV.bne, FV.beq, FV.mul, FV.sub, FV.add, FV.neg, FV.toU32,
      FV.toI64, qtrunc, abs_of_nonneg])
    rfl

theorem composite_step_skip (resize : Image → ℕ → ℕ → Image)
    (rotate : Image → FV → Image) (assets : AssetMap) (n : ℕ)
    (img : Image) (l : Layer)
    (h : (layerActive n l && layerResolvable assets l) = false) :
    composite_step resize rotate assets n img l = img := by
  unfold composite_step
  split
  · rename_i hb
    split
    · rename_i aid ha
      split
      · rename_i asset hr
        rw [hb] at h
        simp only [Bool.true_and] at h
        unfold layerResolvable at h
        rw [ha] at h
        simp only at h
        rw [hr] at h
        simp at h
      · rfl
    · rfl
  · rfl

theorem foldl_filter_skip {α β : Type} (p : α → Bool) (step : β → α → β)
    (hskip : ∀ b a, p a = false → step b a = b) :
    ∀ (l : List α) (init : β), (l.filter p).foldl step init = l.foldl step init := by
  intro l
  induction l with
  | nil => intro init; rfl
  | cons a r ih =>
      intro init
      cases hp : p a
      · simp [List.filter_cons, hp, hskip _ _ hp, ih]
      · simp [List.filter_cons, hp, ih]

/-- Dropping the layers that are inactive at the frame or lack a
resolvable asset does not change the rendered canvas: they contribute
nothing. -/
theorem render_pure_filter (resize : Image → ℕ → ℕ → Image)
    (rotate : Image → FV → Image) (w h : ℕ) (assets : AssetMap)
    (layers : List Layer) (n : ℕ) :
    render_pure resize rotate w h assets
      (layers.filter (fun l => layerActive n l && layerResolvable assets l)) n =
    render_pure resize rotate w h assets layers n := by
  unfold render_pure
  rw [← List.filter_reverse]
  exact foldl_filter_skip _ _
    (fun b a hpa => composite_step_skip resize rotate assets n b a hpa) _ _

/-- Claim C6: when get_all_frames succeeds, the output has exactly
docTotalFrames elements (the op field cast to u32); element i is frame
i's canvas (ordering by frame index); each frame renders without error
and equals the composite of exactly the layers whose inclusive
[start_frame, end_frame] float interval contains i and whose asset
reference resolves — all other layers contribute nothing. -/
theorem C6_frames (d : Value) (dir : String) (fs : String → Option Image)
    (resize : Image → ℕ → ℕ → Image) (rotate : Image → FV → Image)
    (out : List Image)
    (hok : get_all_frames d dir fs resize rotate = .ok out) :
    out.length = docTotalFrames d ∧
    ∃ assets layers, load_assets dir d fs = .ok assets ∧ parse_layers d = .ok layers ∧
      ∀ (i : ℕ) (hi : i < out.length),
        out.get ⟨i, hi⟩ = render_pure resize rotate (docW d) (docH d) assets layers i ∧
        render_frame resize rotate (docW d) (docH d) assets layers i =
          .ok (out.get ⟨i, hi⟩) ∧
        out.get ⟨i, hi⟩ = render_pure resize rotate (docW d) (docH d) assets
          (layers.filter (fun l => layerActive i l && layerResolvable assets l)) i := by
  unfold get_all_frames at hok
  cases hassets : load_assets dir d fs with
  | error e => rw [hassets] at hok; simp [Bind.bind, Except.bind] at hok
  | ok assets =>
      rw [hassets] at hok
      cases hlayers : parse_layers d with
      | error e =>
          rw [hlayers] at hok
          simp [Bind.bind, Except.bind] at hok
      | ok layers =>
          rw [hlayers] at hok
          simp only [Bind.bind, Except.bind] at hok
          rw [mapM_ok
            (fun i => render_pure resize rotate (docW d) (docH d) assets layers i)
            (fun i => render_frame resize rotate (docW d) (docH d) assets layers i)
            (fun i => render_frame_ok resize rotate (docW d) (docH d) assets layers i)
            (List.range (docTotalFrames d))] at hok
          have hout : out = (List.range (docTotalFrames d)).map
              (fun i => render_pure resize rotate (docW d) (docH d) assets layers i) := by
            cases hok
            rfl
          subst hout
          refine ⟨by simp, assets, layers, rfl, rfl, ?_⟩
          intro i hi
          have hget : ((List.range (docTotalFrames d)).map
              (fun i => render_pure resize rotate (docW d) (docH d) assets layers i)).get
                ⟨i, hi⟩ = render_pure resize rotate (docW d) (docH d) assets layers i := by
            have hi2 : i < (List.range (docTotalFrames d)).length := by simpa using hi
            rw [List.get_map]
            congr 1
            exact List.get_range i hi2
          refine ⟨hget, ?_, ?_⟩
          · rw [hget]; exact render_frame_ok _ _ _ _ _ _ _
          · rw [hget, render_pure_filter]

/-- Witness for C6 on the concrete two-frame document. -/
theorem C6_frames_witness :
    ([ImageBuffer.new 1 1, ImageBuffer.new 1 1] : List Image).length = docTotalFrames c6doc ∧
    ∃ assets layers, load_assets "A" c6doc (fun _ => none) = .ok assets ∧
      parse_layers c6doc = .ok layers ∧
      ∀ (i : ℕ) (hi : i < ([ImageBuffer.new 1 1, ImageBuffer.new 1 1] : List Image).length),
        ([ImageBuffer.new 1 1, ImageBuffer.new 1 1] : List Image).get ⟨i, hi⟩ =
          render_pure trivResize trivRotate (docW c6doc) (docH c6doc) assets layers i ∧
        render_frame trivResize trivRotate (docW c6doc) (docH c6doc) assets layers i =
          .ok (([ImageBuffer.new 1 1, ImageBuffer.new 1 1] : List Image).get ⟨i, hi⟩) ∧
        ([ImageBuffer.new 1 1, ImageBuffer.new 1 1] : List Image).get ⟨i, hi⟩ =
          render_pure trivResize trivRotate (docW c6doc) (docH c6doc) assets
            (layers.filter (fun l => layerActive i l && layerResolvable assets l)) i :=
  C6_frames c6doc "A" (fun _ => none) trivResize trivRotate
    [ImageBuffer.new 1 1, ImageBuffer.new 1 1] rfl

theorem load_asset_step_error_iff (dir : String) (fs : String → Option Image)
    (acc : AssetMap) (a : Value) :
    (∃ e, load_asset_step dir fs acc a = .error e) ↔ badAsset dir fs a := by
  unfold load_asset_step badAsset
  cases hid : (a.index "id").as_str with
  | none => simp
  | some id =>
      cases hp : (a.index "p").as_str with
      | none => simp
      | some p =>
          cases hfs : fs (dir ++ "/" ++ p) with
          | none => simp [hfs]
          | some img => simp [hfs]

theorem load_asset_step_ok_inv (dir : String) (fs : String → Option Image)
    (acc : AssetMap) (a : Value) (m : AssetMap)
    (h : load_asset_step dir fs acc a = .ok m) :
    ∃ id p image, (a.index "id").as_str = some id ∧ (a.index "p").as_str = some p ∧
      fs (dir ++ "/" ++ p) = some image ∧
      m = fun k => if k = id then some image else acc k := by
  unfold load_asset_step at h
  split at h
  · exact absurd h (by simp)
  · rename_i id hid
    split at h
    · exact absurd h (by simp)
    · rename_i p hp
      split at h
      · exact absurd h (by simp)
      · rename_i image hfs
        exact ⟨id, p, image, hid, hp, hfs, by injection h with h2; exact h2.symm⟩

theorem loadFold_error_iff (dir : String) (fs : String → Option Image) :
    ∀ (entries : List Value) (acc : AssetMap),
      (∃ e, entries.foldlM (load_asset_step dir fs) acc = .error e) ↔
        ∃ a ∈ entries, badAsset dir fs a := by
  intro entries
  induction entries with
  | nil => intro acc; simp [List.foldlM, pure, Except.pure]
  | cons a r ih =>
      intro acc
      cases hstep : load_asset_step dir fs acc a with
      | error e =>
          constructor
          · intro _
            exact ⟨a, by simp, (load_asset_step_error_iff dir fs acc a).mp ⟨e, hstep⟩⟩
          · intro _
            exact ⟨e, by simp [List.foldlM, hstep, Bind.bind, Except.bind]⟩
      | ok acc2 =>
          have hnotbad : ¬ badAsset dir fs a := by
            intro hb
            obtain ⟨e, he⟩ := (load_asset_step_error_iff dir fs acc a).mpr hb
            rw [hstep] at he
            exact Except.noConfusion he
          have hred : (a :: r).foldlM (load_asset_step dir fs) acc =
              r.foldlM (load_asset_step dir fs) acc2 := by
            simp [List.foldlM, hstep, Bind.bind, Except.bind]
          rw [hred, ih acc2]
          constructor
          · rintro ⟨a2, ha2, hb2⟩
            exact ⟨a2, by simp [ha2], hb2⟩
          · rintro ⟨a2, ha2, hb2⟩
            rcases List.mem_cons.mp ha2 with rfl | hmem
            · exact absurd hb2 hnotbad
            · exact ⟨a2, hmem, hb2⟩

theorem loadFold_preserve (dir : String) (fs : String → Option Image) :
    ∀ (entries : List Value) (acc m : AssetMap),
      entries.foldlM (load_asset_step dir fs) acc = .ok m →
      ∀ k, (∀ a ∈ entries, (a.index "id").as_str ≠ some k) → m k = acc k := by
  intro entries
  induction entries with
  | nil =>
      intro acc m h k _
      cases h
      rfl
  | cons a r ih =>
      intro acc m h k hk
      cases hstep : load_asset_step dir fs acc a with
      | error e => simp [List.foldlM, hstep, Bind.bind, Except.bind] at h
      | ok acc2 =>
          have h2 : r.foldlM (load_asset_step dir fs) acc2 = .ok m := by
            simpa [List.foldlM, hstep, Bind.bind, Except.bind] using h
          obtain ⟨id, p, image, hid, hp, hfs, hm⟩ :=
            load_asset_step_ok_inv dir fs acc a acc2 hstep
          have hkid : k ≠ id := fun he => hk a (by simp) (he ▸ hid)
          have hacc2 : acc2 k = acc k := by
            rw [hm]
            simp [hkid]
          rw [ih acc2 m h2 k (fun a2 ha2 => hk a2 (by simp [ha2])), hacc2]

theorem loadFold_lookup (dir : String) (fs : String → Option Image) :
    ∀ (entries : List Value) (acc m : AssetMap),
      entries.foldlM (load_asset_step dir fs) acc = .ok m →
      (entries.map (fun a => (a.index "id").as_str)).Nodup →
      ∀ a ∈ entries, ∀ id p, (a.index "id").as_str = some id →
        (a.index "p").as_str = some p → m id = fs (dir ++ "/" ++ p) := by
  intro entries
  induction entries with
  | nil =>
      intro acc m _ _ a ha
      cases ha
  | cons a0 r ih =>
      intro acc m h hnd a ha id p hid hp
      cases hstep : load_asset_step dir fs acc a0 with
      | error e => simp [List.foldlM, hstep, Bind.bind, Except.bind] at h
      | ok acc2 =>
          have h2 : r.foldlM (load_asset_step dir fs) acc2 = .ok m := by
            simpa [List.foldlM, hstep, Bind.bind, Except.bind] using h
          obtain ⟨id0, p0, image0, hid0, hp0, hfs0, hm⟩ :=
            load_asset_step_ok_inv dir fs acc a0 acc2 hstep
          have hnd2 : (∀ x ∈ r, ¬ ((x.index "id").as_str = (a0.index "id").as_str)) ∧
              (r.map (fun a => (a.index "id").as_str)).Nodup := by simpa using hnd
          rcases List.mem_cons.mp ha with rfl | hmem
          · have hideq : id = id0 := by
              rw [hid] at hid0
              injection hid0
            have hpeq : p = p0 := by
              rw [hp] at hp0
              injection hp0
            subst hideq
            subst hpeq
            have hnotin : ∀ a2 ∈ r, (a2.index "id").as_str ≠ some id := by
              intro a2 ha2 hcon
              exact hnd2.1 a2 ha2 (hcon.trans hid0.symm)
            rw [loadFold_preserve dir fs r acc2 m h2 id hnotin, hm]
            simp [hfs0]
          · exact ih acc2 m h2 hnd2.2 a hmem id p hid hp

/-- Claim C9: load_assets returns an error if and only if some asset
entry has a missing id, a missing path, or a path that does not
resolve to a readable, decodable image file; otherwise it returns a
mapping taking each (distinct) asset id to its decoded image; and a
load error propagates out of get_all_frames before any rendering. -/
theorem C9_load_assets (dir : String) (d : Value) (fs : String → Option Image) :
    ((∃ e, load_assets dir d fs = .error e) ↔
      ∃ entries, (d.index "assets").as_array = some entries ∧
        ∃ a ∈ entries, badAsset dir fs a) ∧
    (∀ entries, (d.index "assets").as_array = some entries →
      (∀ a ∈ entries, ¬ badAsset dir fs a) →
      (entries.map (fun a => (a.index "id").as_str)).Nodup →
      ∃ m, load_assets dir d fs = .ok m ∧
        ∀ a ∈ entries, ∀ id p, (a.index "id").as_str = some id →
          (a.index "p").as_str = some p → m id = fs (dir ++ "/" ++ p)) ∧
    (∀ e, load_assets dir d fs = .error e →
      ∀ (resize : Image → ℕ → ℕ → Image) (rotate : Image → FV → Image),
        get_all_frames d dir fs resize rotate = .error e) := by
  refine ⟨?_, ?_, ?_⟩
  · unfold load_assets
    cases harr : (d.index "assets").as_array with
    | none => simp
    | some entries =>
        rw [loadFold_error_iff]
        constructor
        · intro hb
          exact ⟨entries, rfl, hb⟩
        · rintro ⟨entries2, he2, hb2⟩
          cases he2
          exact hb2
  · intro entries harr hgood hnd
    unfold load_assets
    rw [harr]
    cases hres : entries.foldlM (load_asset_step dir fs) (fun _ => none) with
    | error e =>
        exfalso
        obtain ⟨a, ha, hb⟩ := (loadFold_error_iff dir fs entries _).mp ⟨e, hres⟩
        exact hgood a ha hb
    | ok m =>
        exact ⟨m, hres, fun a ha id p hid hp =>
          loadFold_lookup dir fs entries _ m hres hnd a ha id p hid hp⟩
  · intro e he resize rotate
    unfold get_all_frames
    rw [he]
    simp [Bind.bind, Except.bind]

/-- Witness for C9: the id-less document errors; the well-formed one
yields a store mapping img_0 to the decoded file. -/
theorem C9_load_assets_witness :
    (∃ e, load_assets "A" c9docBad c9fs = .error e) ∧
    (∃ m, load_assets "A" c9docGood c9fs = .ok m ∧
      m "img_0" = c9fs ("A" ++ "/" ++ "x.png")) := by
  constructor
  · exact (C9_load_assets "A" c9docBad c9fs).1.mpr
      ⟨[Value.obj [("p", Value.str "x.png")]], rfl,
       Value.obj [("p", Value.str "x.png")], by simp, Or.inl rfl⟩
  · obtain ⟨m, hm, hl⟩ := (C9_load_assets "A" c9docGood c9fs).2.1
      [Value.obj [("id", Value.str "img_0"), ("p", Value.str "x.png")]] rfl
      (by
        intro a ha
        simp only [List.mem_singleton] at ha
        subst ha
        simp [badAsset, c9fs, Value.index, Value.get, Value.lookup, Value.as_str])
      (by simp)
    exact ⟨m, hm, hl (Value.obj [("id", Value.str "img_0"), ("p", Value.str "x.png")])
      (by simp) "img_0" "x.png" rfl rfl⟩
